import Mathlib

/-!
Shallow embedding of `chronicl/voicevox-dyn` (`src/lib.rs`), a managed
runtime-loading layer over the VOICEVOX CORE native speech-synthesis
library.  Pure computations (URL construction) become Lean functions;
the effectful operations (`load_with_args`, `init`, `load_model`, `tts`)
become explicit-state functions over an environment record describing
the outcomes of the external collaborators (filesystem, network, child
process, foreign library), returning the operation result, the updated
session state, and a trace of the side effects performed.  Raw pointers
and resolved symbols are modelled as opaque numeric identities; a Rust
panic (from `.unwrap()`) is a distinguished outcome constructor.
-/

/-- The closed set of 14 status codes returned by every foreign call
(`ResultCode` in `src/lib.rs`, `repr(i32)` discriminants 0..13). -/
inductive ResultCode
  | Ok
  | NotLoadedOpenjtalkDictError
  | LoadModelError
  | GetSupportedDevicesError
  | GpuSupportError
  | LoadMetasError
  | UninitializedStatusError
  | InvalidSpeakerIdError
  | InvalidModelIndexError
  | InferenceError
  | ExtractFullContextLabelError
  | InvalidUtf8InputError
  | ParseKanaError
  | InvalidAudioQueryError
  deriving DecidableEq

/-- Numeric value of each `ResultCode` variant (the `repr(i32)` discriminant). -/
def ResultCode.code : ResultCode → Int
  | .Ok => 0
  | .NotLoadedOpenjtalkDictError => 1
  | .LoadModelError => 2
  | .GetSupportedDevicesError => 3
  | .GpuSupportError => 4
  | .LoadMetasError => 5
  | .UninitializedStatusError => 6
  | .InvalidSpeakerIdError => 7
  | .InvalidModelIndexError => 8
  | .InferenceError => 9
  | .ExtractFullContextLabelError => 10
  | .InvalidUtf8InputError => 11
  | .ParseKanaError => 12
  | .InvalidAudioQueryError => 13

/-- Acceleration mode (`AccelerationMode` in `src/lib.rs`). -/
inductive AccelerationMode
  | Auto
  | Cpu
  | Gpu
  deriving DecidableEq

/-- The i32 encoding used when building `InitOptions` (Auto=0, Cpu=1, Gpu=2). -/
def AccelerationMode.toI32 : AccelerationMode → Int
  | .Auto => 0
  | .Cpu => 1
  | .Gpu => 2

/-- Synthesis options (`TtsOptions` in `src/lib.rs`; both default to false). -/
structure TtsOptions where
  kana : Bool
  enable_interrogative_upspeak : Bool
  deriving DecidableEq

/-- The derived `Default` for `TtsOptions`: both flags false. -/
def TtsOptions.default : TtsOptions :=
  { kana := false, enable_interrogative_upspeak := false }

/-- Downloader-URL computation (`voicevox_downloader_url` in `src/lib.rs`,
lines 209-226).  The two parameters are the values of
`std::env::consts::OS` and `std::env::consts::ARCH`; the `os @ "windows"
| os @ "linux"` match arm is the first disjunctive test below. -/
def voicevox_downloader_url (osConst archConst : String) : Except String String :=
  let osStep : Except String String :=
    if osConst = "windows" ∨ osConst = "linux" then Except.ok osConst
    else if osConst = "macos" then Except.ok "osx"
    else Except.error "unsupported os"
  match osStep with
  | Except.error e => Except.error e
  | Except.ok os =>
    let archStep : Except String String :=
      if archConst = "x86_64" then Except.ok "x64"
      else if archConst = "aarch64" then Except.ok "arm64"
      else Except.error "unsupported arch"
    match archStep with
    | Except.error e => Except.error e
    | Except.ok arch =>
      let extension := if os = "windows" then ".exe" else ""
      Except.ok
        ("https://github.com/VOICEVOX/voicevox_core/releases/latest/download/download-"
          ++ os ++ "-" ++ arch ++ extension)

/-- True when an `Except` holds a success value. -/
def exceptIsOk {ε α : Type} : Except ε α → Bool
  | Except.ok _ => true
  | Except.error _ => false

/-- Environment record giving the behaviour of the external collaborators
that `VoiceVox::init`, `VoiceVox::load_model` and `VoiceVox::tts` consume:
the result of resolving the dictionary directory (`download_path` +
`canonicalize` + `to_str`, `none` when that chain fails), the allocation
identity handed out by `CString::new(..).into_raw()`, and the result codes
and output buffer the foreign library returns for each call. -/
structure FfiEnv where
  dictDir : Option String
  dictPtr : Nat
  initResult : ResultCode
  loadModelResult : ResultCode
  ttsResult : ResultCode
  ttsPtr : Nat
  ttsLen : Nat

/-- Foreign options struct (`InitOptions` in `src/lib.rs`, lines 235-242).
The raw `*mut c_char` dictionary-directory pointer is modelled as an
opaque allocation identity. -/
structure InitOptions where
  acceleration_mode : Int
  cpu_num_threads : Nat
  load_all_models : Bool
  open_jtalk_dict_dir : Nat
  deriving DecidableEq

/-- Constructor `InitOptions::new` (lines 251-277): resolves the
dictionary directory (fails when canonicalization or UTF-8 conversion
fails) and stores the `CString::new(dir).into_raw()` pointer. -/
def InitOptions.new (env : FfiEnv) (acceleration_mode : AccelerationMode)
    (cpu_num_threads : Nat) (load_all_models : Bool) : Except String InitOptions :=
  match env.dictDir with
  | none => Except.error "failed to resolve open_jtalk_dic_utf_8-1.11"
  | some _ =>
    Except.ok
      { acceleration_mode := acceleration_mode.toI32
        cpu_num_threads := cpu_num_threads
        load_all_models := load_all_models
        open_jtalk_dict_dir := env.dictPtr }

/-- Derived `Clone` for `InitOptions` (from `#[derive(Debug, Clone)]`,
line 236): every field is cloned, and cloning a raw pointer copies it. -/
def InitOptions.clone (o : InitOptions) : InitOptions :=
  { acceleration_mode := o.acceleration_mode
    cpu_num_threads := o.cpu_num_threads
    load_all_models := o.load_all_models
    open_jtalk_dict_dir := o.open_jtalk_dict_dir }

/-- The `Drop` impl for `InitOptions` (lines 279-283): reconstructs the
`CString` from the stored raw pointer and drops it, i.e. releases that
allocation.  Returns the list of allocation identities freed. -/
def InitOptions.dropFrees (o : InitOptions) : List Nat :=
  [o.open_jtalk_dict_dir]

/-- Scenario: clone an `InitOptions` value, then let both the original and
the clone be dropped; result is the list of allocations released. -/
def cloneThenDropBoth (o : InitOptions) : List Nat :=
  InitOptions.dropFrees o ++ InitOptions.dropFrees (InitOptions.clone o)

/-- The self-referencing `VoiceVoxFns` struct (lines 21-36): the open
library handle plus the four symbols resolved from it, each modelled as
an opaque identity. -/
structure VoiceVoxFns where
  lib : Nat
  init_fn : Nat
  load_model_fn : Nat
  tts_fn : Nat
  wav_free_fn : Nat
  deriving DecidableEq

/-- The engine session (`VoiceVox` in `src/lib.rs`, lines 16-19): the
resolved function table and the one-time initialization flag. -/
structure VoiceVox where
  fns : VoiceVoxFns
  init : Bool
  deriving DecidableEq

/-- One invocation of a foreign export, recorded in the effect trace. -/
inductive FfiCall
  | callInit (opts : InitOptions)
  | callLoadModel (speaker_id : Nat)
  | callTts (text : List Nat) (speaker_id : Nat) (opts : TtsOptions)
  | callWavFree (ptr : Nat)
  deriving DecidableEq

/-- Number of foreign initialize invocations in a trace. -/
def countInitCalls (cs : List FfiCall) : Nat :=
  cs.countP fun c =>
    match c with
    | FfiCall.callInit _ => true
    | _ => false

/-- Error type of the embedded `VoiceVox::init`: either the
`InitOptions::new` construction failed (a `color_eyre` report in the
source) or the foreign call returned a non-Ok `ResultCode`. -/
inductive InitError
  | optionsError (msg : String)
  | code (c : ResultCode)
  deriving DecidableEq

/-- Method `VoiceVox::init` (lines 136-155).  Faithful to the source
order: `InitOptions::new` runs (and can fail) before the `self.init`
idempotence check; the foreign initialize export is invoked only when
the flag is false, and the flag is set only on `ResultCode::Ok`. -/
def VoiceVox.initOp (env : FfiEnv) (self : VoiceVox)
    (acceleration_mode : AccelerationMode) (cpu_num_threads : Nat)
    (load_all_models : Bool) : Except InitError Unit × VoiceVox × List FfiCall :=
  match InitOptions.new env acceleration_mode cpu_num_threads load_all_models with
  | Except.error e => (Except.error (InitError.optionsError e), self, [])
  | Except.ok opts =>
    if self.init then (Except.ok (), self, [])
    else
      match env.initResult with
      | ResultCode.Ok => (Except.ok (), { self with init := true }, [FfiCall.callInit opts])
      | e => (Except.error (InitError.code e), self, [FfiCall.callInit opts])

/-- Method `VoiceVox::load_model` (lines 158-163): invokes the foreign
load-model export and maps `ResultCode::Ok` to success, anything else to
an error carrying that code.  Takes `&self`, so the session state is
returned unchanged. -/
def VoiceVox.load_model (env : FfiEnv) (self : VoiceVox) (speaker_id : Nat) :
    Except ResultCode Unit × VoiceVox × List FfiCall :=
  match env.loadModelResult with
  | ResultCode.Ok => (Except.ok (), self, [FfiCall.callLoadModel speaker_id])
  | e => (Except.error e, self, [FfiCall.callLoadModel speaker_id])

/-- Foreign buffer wrapper (`CPointerWrap` in `src/lib.rs`, lines
343-365): raw pointer, element count, and the identity of the bound
deallocation symbol. -/
structure CPointerWrap where
  bytes : Nat
  length : Nat
  free_fn : Nat
  deriving DecidableEq

/-- Constructor `CPointerWrap::new` (lines 350-360). -/
def CPointerWrap.new (bytes length free_fn : Nat) : CPointerWrap :=
  { bytes := bytes, length := length, free_fn := free_fn }

/-- The `Drop` impl for `CPointerWrap` (lines 367-371): one call of the
bound deallocation function on the stored pointer, returned as the pair
(deallocator identity, pointer). -/
def CPointerWrap.dropCall (w : CPointerWrap) : Nat × Nat :=
  (w.free_fn, w.bytes)

/-- Dropping a whole list of wrappers, in order: each wrapper value is
dropped exactly once (the type implements neither `Copy` nor `Clone`). -/
def dropAll (ws : List CPointerWrap) : List (Nat × Nat) :=
  ws.map CPointerWrap.dropCall

/-- Outcome of the embedded `VoiceVox::tts`: the source panics (via
`CString::new(text).unwrap()`) on text with an embedded null byte,
otherwise returns `Result<CPointerWrap<u8>, ResultCode>`. -/
inductive TtsOutcome
  | panicked
  | err (c : ResultCode)
  | ok (buf : CPointerWrap)
  deriving DecidableEq

/-- Method `VoiceVox::tts` (lines 169-198).  The text is its byte
sequence; `CString::new` fails exactly when a 0 byte occurs, and the
source unwraps that result, so the embedding panics there, before any
foreign call.  Otherwise the foreign synthesize export runs and on
`ResultCode::Ok` its output is wrapped with this session's free-buffer
symbol.  Takes `&self`, so the session state is returned unchanged. -/
def VoiceVox.tts (env : FfiEnv) (self : VoiceVox) (text : List Nat)
    (speaker_id : Nat) (opts : TtsOptions) : TtsOutcome × VoiceVox × List FfiCall :=
  if text.contains 0 then (TtsOutcome.panicked, self, [])
  else
    match env.ttsResult with
    | ResultCode.Ok =>
      (TtsOutcome.ok (CPointerWrap.new env.ttsPtr env.ttsLen self.fns.wav_free_fn),
        self, [FfiCall.callTts text speaker_id opts])
    | e => (TtsOutcome.err e, self, [FfiCall.callTts text speaker_id opts])

/-- Target operating system of the compiled program.  The source selects
the shared-library filename with compile-time `cfg(target_os = ...)`
attributes, so the program only exists for these three systems. -/
inductive OsKind
  | windows
  | macos
  | linux
  deriving DecidableEq

/-- Value of `std::env::consts::OS` for each target. -/
def OsKind.constOS : OsKind → String
  | OsKind.windows => "windows"
  | OsKind.macos => "macos"
  | OsKind.linux => "linux"

/-- Platform-specific shared-library filename chosen by the `cfg` blocks
in `VoiceVox::load_with_args` (lines 67-72). -/
def OsKind.dllName : OsKind → String
  | OsKind.windows => "voicevox_core.dll"
  | OsKind.macos => "libvoicevox_core.dylib"
  | OsKind.linux => "libvoicevox_core.so"

/-- Environment for `VoiceVox::load_with_args`: the platform, the result
of each external step (filesystem, network, child process, dynamic
loader), and the identities handed out on success.  `exitCode` is the
child downloader's exit status: the source runs `child.wait()?`, which
only fails on an OS-level wait error, and discards the returned
`ExitStatus`, so no definition below reads this field. -/
structure LoadEnv where
  os : OsKind
  arch : String
  exeParent : Option String
  dllExists : Bool
  httpOk : Bool
  fileCreateOk : Bool
  copyOk : Bool
  chmodOk : Bool
  exePathToStrOk : Bool
  spawnOk : Bool
  waitOk : Bool
  exitCode : Nat
  libOpenOk : Bool
  symInitOk : Bool
  symLoadModelOk : Bool
  symTtsOk : Bool
  symWavFreeOk : Bool
  libId : Nat

/-- Observable side effect of provisioning and loading. -/
inductive Effect
  | networkGet (url : String)
  | fileCreate (path : String)
  | fileWrite (path : String)
  | chmod (path : String)
  | spawn (path : String) (args : List String)
  | wait
  | libOpen (path : String)
  deriving DecidableEq

/-- True for a network request effect. -/
def Effect.isNetwork : Effect → Bool
  | Effect.networkGet _ => true
  | _ => false

/-- True for a filesystem write effect (file creation or data copy). -/
def Effect.isFileWrite : Effect → Bool
  | Effect.fileCreate _ => true
  | Effect.fileWrite _ => true
  | _ => false

/-- True for a child-process spawn effect (the downloader or `chmod`). -/
def Effect.isSpawn : Effect → Bool
  | Effect.spawn _ _ => true
  | Effect.chmod _ => true
  | _ => false

/-- Result of the provisioning block inside `load_with_args`. -/
inductive ProvisionResult
  | ok
  | err (msg : String)
  | panicked (msg : String)
  deriving DecidableEq

/-- Final step of provisioning (lines 90-114): convert the target
directory to a string (`?`), spawn the downloader with `-o <dir>` plus
the extra args (`?`), and block on `wait` (`?`).  The child's exit code
is never inspected. -/
def provisionSpawnStep (env : LoadEnv) (exePath downloaderPath : String)
    (args : List String) (acc : List Effect) : ProvisionResult × List Effect :=
  if !env.exePathToStrOk then
    (ProvisionResult.err "failed to convert exe path to str", acc)
  else if !env.spawnOk then
    (ProvisionResult.err "failed to spawn downloader", acc)
  else
    let acc := acc ++ [Effect.spawn downloaderPath (["-o", exePath] ++ args), Effect.wait]
    if !env.waitOk then (ProvisionResult.err "wait failed", acc)
    else (ProvisionResult.ok, acc)

/-- Permission step (lines 82-87): on unix targets the source runs
`chmod +x` through `Command::output().unwrap()` — an OS-level failure to
run that command panics; on windows the step is compiled out. -/
def provisionChmodStep (env : LoadEnv) (exePath downloaderPath : String)
    (args : List String) (acc : List Effect) : ProvisionResult × List Effect :=
  if env.os = OsKind.windows then
    provisionSpawnStep env exePath downloaderPath args acc
  else
    let acc := acc ++ [Effect.chmod downloaderPath]
    if !env.chmodOk then (ProvisionResult.panicked "chmod output unwrap", acc)
    else provisionSpawnStep env exePath downloaderPath args acc

/-- Provisioning block of `load_with_args` (lines 74-115): when the
shared library is already present the whole block is skipped; otherwise
the downloader is fetched (`?` on URL, transport, file create, copy),
marked executable, and run to completion. -/
def provision (env : LoadEnv) (exePath : String) (args : List String) :
    ProvisionResult × List Effect :=
  if env.dllExists then (ProvisionResult.ok, [])
  else
    match voicevox_downloader_url env.os.constOS env.arch with
    | Except.error e => (ProvisionResult.err e, [])
    | Except.ok url =>
      let downloaderPath := exePath ++ "/voicevox_downloader"
      let acc := [Effect.networkGet url]
      if !env.httpOk then (ProvisionResult.err "network error", acc)
      else
        let acc := acc ++ [Effect.fileCreate downloaderPath]
        if !env.fileCreateOk then (ProvisionResult.err "file create error", acc)
        else
          let acc := acc ++ [Effect.fileWrite downloaderPath]
          if !env.copyOk then (ProvisionResult.err "io copy error", acc)
          else provisionChmodStep env exePath downloaderPath args acc

/-- Outcome of `load_with_args`: a panic (the source unwraps the dynamic
loader results), an error report, or a fresh uninitialized session. -/
inductive LoadOutcome
  | panicked (msg : String)
  | err (msg : String)
  | ok (vv : VoiceVox)
  deriving DecidableEq

/-- True when a `LoadOutcome` is a successfully constructed session. -/
def LoadOutcome.isSuccess : LoadOutcome → Bool
  | LoadOutcome.ok _ => true
  | _ => false

/-- Function `VoiceVox::load_with_args` (lines 63-131): resolve the
executable's directory, provision assets when the library file is
missing, then `Library::new(dll).unwrap()` and four
`lib.get(..).unwrap()` symbol resolutions — each unwrap panics on
failure rather than returning an error. -/
def load_with_args (env : LoadEnv) (args : List String) : LoadOutcome × List Effect :=
  match env.exeParent with
  | none => (LoadOutcome.err "exe path has no parent directory", [])
  | some exePath =>
    let dll := exePath ++ "/" ++ env.os.dllName
    match provision env exePath args with
    | (ProvisionResult.err e, effs) => (LoadOutcome.err e, effs)
    | (ProvisionResult.panicked m, effs) => (LoadOutcome.panicked m, effs)
    | (ProvisionResult.ok, effs) =>
      let effs := effs ++ [Effect.libOpen dll]
      if !env.libOpenOk then (LoadOutcome.panicked "library load unwrap", effs)
      else if !env.symInitOk then (LoadOutcome.panicked "voicevox_initialize", effs)
      else if !env.symLoadModelOk then (LoadOutcome.panicked "voicevox_load_model", effs)
      else if !env.symTtsOk then (LoadOutcome.panicked "voicevox_tts", effs)
      else if !env.symWavFreeOk then (LoadOutcome.panicked "voicevox_wav_free", effs)
      else
        (LoadOutcome.ok
          { fns :=
              { lib := env.libId
                init_fn := env.libId + 1
                load_model_fn := env.libId + 2
                tts_fn := env.libId + 3
                wav_free_fn := env.libId + 4 }
            init := false },
          effs)

/-- Function `VoiceVox::load` (lines 56-58): `load_with_args` with no
extra downloader arguments. -/
def load (env : LoadEnv) : LoadOutcome × List Effect :=
  load_with_args env []

/-- Sample foreign environment: dictionary directory resolves, every
foreign call reports `Ok`, and the synthesize call hands back a 4-byte
buffer at pointer identity 42. -/
def ffiEnvA : FfiEnv :=
  { dictDir := some "/app/open_jtalk_dic_utf_8-1.11"
    dictPtr := 5
    initResult := ResultCode.Ok
    loadModelResult := ResultCode.Ok
    ttsResult := ResultCode.Ok
    ttsPtr := 42
    ttsLen := 4 }

/-- Sample uninitialized session with resolved symbol identities 11-14. -/
def sessionA : VoiceVox :=
  { fns := { lib := 10, init_fn := 11, load_model_fn := 12, tts_fn := 13, wav_free_fn := 14 }
    init := false }

/-- Sample load environment: linux/x86_64, library file absent, every
external step succeeds, downloader child exits 0. -/
def loadEnvA : LoadEnv :=
  { os := OsKind.linux
    arch := "x86_64"
    exeParent := some "/app"
    dllExists := false
    httpOk := true
    fileCreateOk := true
    copyOk := true
    chmodOk := true
    exePathToStrOk := true
    spawnOk := true
    waitOk := true
    exitCode := 0
    libOpenOk := true
    symInitOk := true
    symLoadModelOk := true
    symTtsOk := true
    symWavFreeOk := true
    libId := 10 }

/-- Concrete value of the downloader URL for windows/x86_64. -/
theorem url_windows_x64 :
    voicevox_downloader_url "windows" "x86_64" =
      Except.ok "https://github.com/VOICEVOX/voicevox_core/releases/latest/download/download-windows-x64.exe" :=
  rfl

/-- Concrete value of the downloader URL for linux/x86_64. -/
theorem url_linux_x64 :
    voicevox_downloader_url "linux" "x86_64" =
      Except.ok "https://github.com/VOICEVOX/voicevox_core/releases/latest/download/download-linux-x64" :=
  rfl

/-- Concrete value of the downloader URL for macos/x86_64. -/
theorem url_macos_x64 :
    voicevox_downloader_url "macos" "x86_64" =
      Except.ok "https://github.com/VOICEVOX/voicevox_core/releases/latest/download/download-osx-x64" :=
  rfl

/-- C8: for every supported (OS, architecture) pair in
{windows, linux, macos} × {x86_64, aarch64} the downloader-URL
computation produces exactly
`https://github.com/VOICEVOX/voicevox_core/releases/latest/download/download-{os}-{arch}{ext}`
with os in {windows, linux, osx}, arch in {x64, arm64} and ext `.exe`
only on windows; for every OS value outside the supported set, and for
every architecture value outside the supported set, it fails. -/
theorem downloader_url_spec (osConst archConst : String) :
    voicevox_downloader_url "windows" "x86_64" =
      Except.ok "https://github.com/VOICEVOX/voicevox_core/releases/latest/download/download-windows-x64.exe" ∧
    voicevox_downloader_url "windows" "aarch64" =
      Except.ok "https://github.com/VOICEVOX/voicevox_core/releases/latest/download/download-windows-arm64.exe" ∧
    voicevox_downloader_url "linux" "x86_64" =
      Except.ok "https://github.com/VOICEVOX/voicevox_core/releases/latest/download/download-linux-x64" ∧
    voicevox_downloader_url "linux" "aarch64" =
      Except.ok "https://github.com/VOICEVOX/voicevox_core/releases/latest/download/download-linux-arm64" ∧
    voicevox_downloader_url "macos" "x86_64" =
      Except.ok "https://github.com/VOICEVOX/voicevox_core/releases/latest/download/download-osx-x64" ∧
    voicevox_downloader_url "macos" "aarch64" =
      Except.ok "https://github.com/VOICEVOX/voicevox_core/releases/latest/download/download-osx-arm64" ∧
    (¬ (osConst = "windows" ∨ osConst = "linux" ∨ osConst = "macos") →
      exceptIsOk (voicevox_downloader_url osConst archConst) = false) ∧
    (¬ (archConst = "x86_64" ∨ archConst = "aarch64") →
      exceptIsOk (voicevox_downloader_url osConst archConst) = false) := by
  refine ⟨rfl, rfl, rfl, rfl, rfl, rfl, ?_, ?_⟩
  · intro h
    push_neg at h
    obtain ⟨hw, hl, hm⟩ := h
    simp [voicevox_downloader_url, hw, hl, hm, exceptIsOk]
  · intro h
    push_neg at h
    obtain ⟨hx, ha⟩ := h
    by_cases h1 : osConst = "windows" ∨ osConst = "linux"
    · simp [voicevox_downloader_url, h1, hx, ha, exceptIsOk]
    · by_cases h2 : osConst = "macos"
      · simp [voicevox_downloader_url, h1, h2, hx, ha, exceptIsOk]
      · simp [voicevox_downloader_url, h1, h2, exceptIsOk]

/-- C8 witness: the failure clauses of `downloader_url_spec` applied at
the concrete unsupported platform values freebsd and riscv64. -/
theorem downloader_url_spec_witness :
    exceptIsOk (voicevox_downloader_url "freebsd" "x86_64") = false ∧
    exceptIsOk (voicevox_downloader_url "linux" "riscv64") = false :=
  ⟨(downloader_url_spec "freebsd" "x86_64").2.2.2.2.2.2.1 (by decide),
   (downloader_url_spec "linux" "riscv64").2.2.2.2.2.2.2 (by decide)⟩

/-- C1 counterexample: `tts` on text whose bytes contain an embedded
null byte does not return an `InvalidTextEncoding` error — no such error
value exists in the code and the return type could not carry it; the
`CString::new(text).unwrap()` at line 178 panics instead, before any
foreign call is made. -/
theorem tts_null_byte_cex :
    VoiceVox.tts ffiEnvA sessionA [104, 0, 105] 1 TtsOptions.default =
      (TtsOutcome.panicked, sessionA, []) := by
  rfl

/-- C1 amended: for every session and input, `tts` on text containing an
embedded null byte panics (unwrapping the failed `CString` construction)
and performs no foreign synthesize call, leaving the session unchanged. -/
theorem tts_null_byte_panics (env : FfiEnv) (s : VoiceVox) (text : List Nat)
    (speaker_id : Nat) (opts : TtsOptions) (h : text.contains 0 = true) :
    VoiceVox.tts env s text speaker_id opts = (TtsOutcome.panicked, s, []) := by
  have hmem : (0 : Nat) ∈ text := by simpa using h
  simp [VoiceVox.tts, hmem]

/-- C1 witness: the amended theorem at the concrete text bytes [0, 97]. -/
theorem tts_null_byte_panics_witness :
    List.contains [0, 97] 0 = true ∧
    VoiceVox.tts ffiEnvA sessionA [0, 97] 2 TtsOptions.default =
      (TtsOutcome.panicked, sessionA, []) :=
  ⟨by decide, tts_null_byte_panics ffiEnvA sessionA [0, 97] 2 TtsOptions.default (by decide)⟩

/-- C5 (code bug): `InitOptions` derives `Clone`, which copies the raw
dictionary-string pointer, while its `Drop` impl frees that pointer with
`CString::from_raw`; cloning a value and dropping both the original and
the clone therefore releases the same allocation twice — a double free,
violating the release-exactly-once invariant the claim states. -/
theorem initOptions_clone_double_free :
    cloneThenDropBoth
        { acceleration_mode := 0, cpu_num_threads := 4, load_all_models := false,
          open_jtalk_dict_dir := 7 } = [7, 7] ∧
    List.count 7
        (cloneThenDropBoth
          { acceleration_mode := 0, cpu_num_threads := 4, load_all_models := false,
            open_jtalk_dict_dir := 7 }) = 2 := by
  exact ⟨rfl, rfl⟩

/-- C6: a buffer wrapper produced by a successful `tts` call is bound to
this session's free-buffer symbol and wraps the pointer the foreign call
returned; destroying it invokes that deallocator exactly once with the
original pointer, and over any sequence of wrap/drop cycles the
deallocator runs exactly once per wrap — N frees for N wraps, and for
each pointer value exactly as many frees as wraps of that pointer. -/
theorem cPointerWrap_exactly_once (env : FfiEnv) (s : VoiceVox) (text : List Nat)
    (speaker_id : Nat) (opts : TtsOptions) (w : CPointerWrap)
    (h : (VoiceVox.tts env s text speaker_id opts).1 = TtsOutcome.ok w) :
    w.free_fn = s.fns.wav_free_fn ∧ w.bytes = env.ttsPtr ∧
    CPointerWrap.dropCall w = (s.fns.wav_free_fn, env.ttsPtr) ∧
    ∀ ws : List CPointerWrap,
      (dropAll ws).length = ws.length ∧
      ∀ p : Nat,
        List.countP (fun fc => fc.2 == p) (dropAll ws) =
          List.countP (fun wrap => wrap.bytes == p) ws := by
  have hw : w = CPointerWrap.new env.ttsPtr env.ttsLen s.fns.wav_free_fn := by
    by_cases hz : (0 : Nat) ∈ text
    · simp [VoiceVox.tts, hz] at h
    · cases hres : env.ttsResult <;> simp [VoiceVox.tts, hz, hres] at h
      exact h.symm
  subst hw
  refine ⟨rfl, rfl, rfl, ?_⟩
  intro ws
  constructor
  · simp [dropAll]
  · intro p
    induction ws with
    | nil => rfl
    | cons a l ih =>
      simp only [dropAll, List.map_cons, List.countP_cons, CPointerWrap.dropCall] at ih ⊢
      rw [ih]

/-- C6 witness: the theorem applied at a concrete successful `tts` call,
whose buffer drop frees pointer 42 through symbol 14. -/
theorem cPointerWrap_exactly_once_witness :
    (VoiceVox.tts ffiEnvA sessionA [104] 1 TtsOptions.default).1 =
      TtsOutcome.ok (CPointerWrap.new 42 4 14) ∧
    CPointerWrap.dropCall (CPointerWrap.new 42 4 14) = (14, 42) :=
  ⟨rfl,
   (cPointerWrap_exactly_once ffiEnvA sessionA [104] 1 TtsOptions.default
      (CPointerWrap.new 42 4 14) rfl).2.2.1⟩

/-- C7: an `init` call that reaches the foreign initialize export and
receives a result code other than `Ok` surfaces exactly that code as its
error and leaves the initialized flag false, so the call is retriable;
the flag becomes true on the first successful call. -/
theorem init_error_retriable (env : FfiEnv) (s : VoiceVox) (m : AccelerationMode)
    (t : Nat) (b : Bool) (c : ResultCode) (d : String)
    (hdict : env.dictDir = some d) (hres : env.initResult = c) (hs : s.init = false) :
    (c ≠ ResultCode.Ok →
       (VoiceVox.initOp env s m t b).1 = Except.error (InitError.code c) ∧
       (VoiceVox.initOp env s m t b).2.1.init = false) ∧
    (c = ResultCode.Ok → (VoiceVox.initOp env s m t b).2.1.init = true) := by
  constructor
  · intro hne
    cases c <;> simp_all [VoiceVox.initOp, InitOptions.new, hs]
  · intro heq
    subst heq
    simp [VoiceVox.initOp, InitOptions.new, hdict, hres, hs]

/-- C7 witness: a concrete uninitialized session whose foreign
initialize reports `GpuSupportError`: the error carries that code and
the flag stays false; with `Ok` instead, the flag becomes true. -/
theorem init_error_retriable_witness :
    (VoiceVox.initOp { ffiEnvA with initResult := ResultCode.GpuSupportError }
        sessionA AccelerationMode.Gpu 4 false).1 =
      Except.error (InitError.code ResultCode.GpuSupportError) ∧
    (VoiceVox.initOp { ffiEnvA with initResult := ResultCode.GpuSupportError }
        sessionA AccelerationMode.Gpu 4 false).2.1.init = false ∧
    (VoiceVox.initOp ffiEnvA sessionA AccelerationMode.Auto 4 false).2.1.init = true := by
  refine ⟨?_, ?_, ?_⟩
  · exact ((init_error_retriable { ffiEnvA with initResult := ResultCode.GpuSupportError }
      sessionA AccelerationMode.Gpu 4 false ResultCode.GpuSupportError
      "/app/open_jtalk_dic_utf_8-1.11" rfl rfl rfl).1 (by decide)).1
  · exact ((init_error_retriable { ffiEnvA with initResult := ResultCode.GpuSupportError }
      sessionA AccelerationMode.Gpu 4 false ResultCode.GpuSupportError
      "/app/open_jtalk_dic_utf_8-1.11" rfl rfl rfl).1 (by decide)).2
  · exact (init_error_retriable ffiEnvA sessionA AccelerationMode.Auto 4 false
      ResultCode.Ok "/app/open_jtalk_dic_utf_8-1.11" rfl rfl rfl).2 rfl

/-- C10: `load_model` and `tts` take the session by shared reference and
leave every field unchanged — the initialized flag and the resolved
function table after the call are exactly those before it, whether the
call succeeds or fails; `init` is thus the only state-modifying
operation. -/
theorem load_model_tts_frame (env : FfiEnv) (s : VoiceVox) (speaker_id : Nat)
    (text : List Nat) (opts : TtsOptions) :
    (VoiceVox.load_model env s speaker_id).2.1 = s ∧
    (VoiceVox.tts env s text speaker_id opts).2.1 = s := by
  constructor
  · cases hres : env.loadModelResult <;> simp [VoiceVox.load_model, hres]
  · by_cases hz : (0 : Nat) ∈ text
    · simp [VoiceVox.tts, hz]
    · cases hres : env.ttsResult <;> simp [VoiceVox.tts, hz, hres]

/-- C4 counterexample: on a session whose initialized flag is already
true, `init` does not return success unconditionally: the source builds
`InitOptions` (line 142) before the idempotence check (line 145), so
when dictionary-path resolution fails the call returns that error even
though the session is already initialized. -/
theorem init_reinit_cex :
    VoiceVox.initOp { ffiEnvA with dictDir := none } { sessionA with init := true }
        AccelerationMode.Auto 4 false =
      (Except.error (InitError.optionsError "failed to resolve open_jtalk_dic_utf_8-1.11"),
        { sessionA with init := true }, []) := by
  rfl

/-- C4 amended: when the session is already initialized and the
`InitOptions` construction (which still runs first) succeeds, `init`
returns success without invoking the foreign initialize export; across
two consecutive successful `init` calls starting from an uninitialized
session, the foreign initialize export is invoked exactly once and the
initialized flag is true after either call. -/
theorem init_idempotent (env1 env2 : FfiEnv) (s : VoiceVox)
    (m1 m2 : AccelerationMode) (t1 t2 : Nat) (b1 b2 : Bool) (d : String) :
    (s.init = true → env1.dictDir = some d →
       VoiceVox.initOp env1 s m1 t1 b1 = (Except.ok (), s, [])) ∧
    (s.init = false →
       (VoiceVox.initOp env1 s m1 t1 b1).1 = Except.ok () →
       (VoiceVox.initOp env2 (VoiceVox.initOp env1 s m1 t1 b1).2.1 m2 t2 b2).1 = Except.ok () →
       (VoiceVox.initOp env1 s m1 t1 b1).2.1.init = true ∧
       (VoiceVox.initOp env2 (VoiceVox.initOp env1 s m1 t1 b1).2.1 m2 t2 b2).2.1.init = true ∧
       countInitCalls ((VoiceVox.initOp env1 s m1 t1 b1).2.2 ++
         (VoiceVox.initOp env2 (VoiceVox.initOp env1 s m1 t1 b1).2.1 m2 t2 b2).2.2) = 1) := by
  constructor
  · intro hi hdict
    simp [VoiceVox.initOp, InitOptions.new, hdict, hi]
  · intro hs0 h1 h2
    cases hdict1 : env1.dictDir with
    | none => simp [VoiceVox.initOp, InitOptions.new, hdict1] at h1
    | some d1 =>
      cases hdict2 : env2.dictDir with
      | none => simp [VoiceVox.initOp, InitOptions.new, hdict2] at h2
      | some d2 =>
        cases hres1 : env1.initResult
        case Ok =>
          simp [VoiceVox.initOp, InitOptions.new, hdict1, hdict2, hres1, hs0, countInitCalls]
        all_goals simp [VoiceVox.initOp, InitOptions.new, hdict1, hres1, hs0] at h1

/-- C4 witness: two consecutive `init` calls on a concrete uninitialized
session where everything succeeds: the flag is true after either call
and exactly one foreign initialize invocation occurs in total. -/
theorem init_idempotent_witness :
    (VoiceVox.initOp ffiEnvA sessionA AccelerationMode.Auto 4 false).2.1.init = true ∧
    (VoiceVox.initOp ffiEnvA
        (VoiceVox.initOp ffiEnvA sessionA AccelerationMode.Auto 4 false).2.1
        AccelerationMode.Auto 4 false).2.1.init = true ∧
    countInitCalls ((VoiceVox.initOp ffiEnvA sessionA AccelerationMode.Auto 4 false).2.2 ++
      (VoiceVox.initOp ffiEnvA
        (VoiceVox.initOp ffiEnvA sessionA AccelerationMode.Auto 4 false).2.1
        AccelerationMode.Auto 4 false).2.2) = 1 :=
  (init_idempotent ffiEnvA ffiEnvA sessionA AccelerationMode.Auto AccelerationMode.Auto
      4 4 false false "/app/open_jtalk_dic_utf_8-1.11").2 rfl rfl rfl

/-- C2 counterexample: with the library file already present, an open
failure of the dynamic library — and likewise a missing export — makes
`load_with_args` panic (the source unwraps `Library::new` and every
`lib.get`), rather than return a `LibraryLoadError` or
`SymbolNotFound` error value; no such error values exist in the code. -/
theorem load_open_failure_cex :
    (load_with_args { loadEnvA with dllExists := true, libOpenOk := false } []).1 =
      LoadOutcome.panicked "library load unwrap" ∧
    (load_with_args { loadEnvA with dllExists := true, symTtsOk := false } []).1 =
      LoadOutcome.panicked "voicevox_tts" := by
  exact ⟨rfl, rfl⟩

/-- C2 amended: when the shared library cannot be opened, or any of the
four exports cannot be resolved, `load_with_args` aborts by panicking
(from `.unwrap()`) instead of returning an error value. -/
theorem load_open_failure_panics (env : LoadEnv) (args : List String) (p : String)
    (hp : env.exeParent = some p) (hd : env.dllExists = true) :
    (env.libOpenOk = false →
       (load_with_args env args).1 = LoadOutcome.panicked "library load unwrap") ∧
    (env.libOpenOk = true → env.symInitOk = false →
       (load_with_args env args).1 = LoadOutcome.panicked "voicevox_initialize") ∧
    (env.libOpenOk = true → env.symInitOk = true → env.symLoadModelOk = false →
       (load_with_args env args).1 = LoadOutcome.panicked "voicevox_load_model") ∧
    (env.libOpenOk = true → env.symInitOk = true → env.symLoadModelOk = true →
     env.symTtsOk = false →
       (load_with_args env args).1 = LoadOutcome.panicked "voicevox_tts") ∧
    (env.libOpenOk = true → env.symInitOk = true → env.symLoadModelOk = true →
     env.symTtsOk = true → env.symWavFreeOk = false →
       (load_with_args env args).1 = LoadOutcome.panicked "voicevox_wav_free") := by
  refine ⟨?_, ?_, ?_, ?_, ?_⟩
  · intro h1
    simp [load_with_args, provision, hp, hd, h1]
  · intro h1 h2
    simp [load_with_args, provision, hp, hd, h1, h2]
  · intro h1 h2 h3
    simp [load_with_args, provision, hp, hd, h1, h2, h3]
  · intro h1 h2 h3 h4
    simp [load_with_args, provision, hp, hd, h1, h2, h3, h4]
  · intro h1 h2 h3 h4 h5
    simp [load_with_args, provision, hp, hd, h1, h2, h3, h4, h5]

/-- C2 witness: the open-failure clause of the amended theorem at a
concrete environment. -/
theorem load_open_failure_witness :
    (load_with_args { loadEnvA with dllExists := true, libOpenOk := false }
        ["--device", "cuda"]).1 = LoadOutcome.panicked "library load unwrap" :=
  (load_open_failure_panics { loadEnvA with dllExists := true, libOpenOk := false }
      ["--device", "cuda"] "/app" rfl rfl).1 rfl

/-- C3 counterexample: a run in which the downloader child exits with
status 1 and every other step succeeds: the load succeeds anyway — the
source only propagates `wait` errors and never inspects the returned
exit status, and no `DownloaderFailed` error exists in the code. -/
theorem downloader_exit_cex :
    (load_with_args { loadEnvA with exitCode := 1 } []).1.isSuccess = true := by
  rfl

/-- C3 amended: if the downloader cannot be spawned (or, symmetrically,
waited on), `load_with_args` fails with that propagated error; but the
child's exit status is never read — note that no hypothesis below
constrains `exitCode`, yet when spawn and wait succeed the load
succeeds for any exit status. -/
theorem downloader_spawn_error (env : LoadEnv) (args : List String) (p : String)
    (hp : env.exeParent = some p) (hd : env.dllExists = false) (ha : env.arch = "x86_64")
    (hh : env.httpOk = true) (hf : env.fileCreateOk = true) (hc : env.copyOk = true)
    (hch : env.chmodOk = true) (hts : env.exePathToStrOk = true) :
    (env.spawnOk = false →
       (load_with_args env args).1 = LoadOutcome.err "failed to spawn downloader") ∧
    (env.spawnOk = true → env.waitOk = true → env.libOpenOk = true →
     env.symInitOk = true → env.symLoadModelOk = true → env.symTtsOk = true →
     env.symWavFreeOk = true →
       (load_with_args env args).1.isSuccess = true) := by
  constructor
  · intro hsp
    cases hos : env.os <;>
      simp [load_with_args, provision, provisionChmodStep, provisionSpawnStep,
        OsKind.constOS, url_windows_x64, url_linux_x64, url_macos_x64,
        hp, hd, ha, hh, hf, hc, hch, hts, hsp, hos]
  · intro hsp hw hl h1 h2 h3 h4
    cases hos : env.os <;>
      simp [load_with_args, provision, provisionChmodStep, provisionSpawnStep,
        OsKind.constOS, url_windows_x64, url_linux_x64, url_macos_x64,
        LoadOutcome.isSuccess,
        hp, hd, ha, hh, hf, hc, hch, hts, hsp, hw, hl, h1, h2, h3, h4, hos]

/-- C3 witness: the success clause of the amended theorem at a concrete
environment whose downloader exits with status 7. -/
theorem downloader_exit_witness :
    (load_with_args { loadEnvA with exitCode := 7 } []).1.isSuccess = true :=
  (downloader_spawn_error { loadEnvA with exitCode := 7 } [] "/app"
      rfl rfl rfl rfl rfl rfl rfl rfl).2 rfl rfl rfl rfl rfl rfl rfl

/-- C9: when the platform shared-library file already exists in the
target directory, provisioning is skipped entirely: the load performs no
network request, no filesystem write, and spawns no child process — the
only remaining effect is opening the already-present library. -/
theorem ensure_assets_idempotent (env : LoadEnv) (args : List String)
    (hd : env.dllExists = true) :
    ((load_with_args env args).2.all fun eff =>
        !Effect.isNetwork eff && !Effect.isFileWrite eff && !Effect.isSpawn eff) = true := by
  cases hp : env.exeParent with
  | none => simp [load_with_args, hp]
  | some p =>
    simp [load_with_args, hp, provision, hd]
    split_ifs <;> simp [Effect.isNetwork, Effect.isFileWrite, Effect.isSpawn]

/-- C9 witness: the theorem at a concrete environment with the library
file present. -/
theorem ensure_assets_idempotent_witness :
    ((load_with_args { loadEnvA with dllExists := true } []).2.all fun eff =>
        !Effect.isNetwork eff && !Effect.isFileWrite eff && !Effect.isSpawn eff) = true :=
  ensure_assets_idempotent { loadEnvA with dllExists := true } [] rfl
